import Mathlib

/-!
Verification of `update_lat_lon_time.py` (telescope_tools).

The file embeds the two core functions of the repository:

* `wait_for_fix` (source lines 66-104): the fix-accumulation loop that folds
  decoded NMEA records (GGA position reports, RMC date/validity reports,
  anything else) into a `Fix`, or returns `None` when interrupted;
* `set_telescope_from_gps` (source lines 107-157): the synchronization run
  that identifies the controller, acquires a fix, resolves the local
  timezone, and pushes time and location to the controller.

Records are modelled as a sum type, the blocking record stream as a finite
list (list exhaustion standing for the operator's `KeyboardInterrupt`),
floats (`lat`, `lon`, `HDOP`) as rationals, and the external collaborators
(timezone index, timezone database, controller) as an explicit environment.
The run returns both its outcome and the ordered list of controller calls it
issued, so that claims about which calls are or are not made are statable.
-/

namespace TelescopeTools

/-- A calendar date (UTC), as carried by an RMC sentence (`msg.date`). -/
structure Date where
  year : Nat
  month : Nat
  day : Nat
deriving DecidableEq, Repr

/-- A time of day (UTC), as carried by GGA and RMC sentences (`msg.time`). -/
structure TimeOfDay where
  hour : Nat
  minute : Nat
  second : Nat
deriving DecidableEq, Repr

/-- The `Fix` dataclass (source lines 47-52). -/
structure Fix where
  lat : Rat
  lon : Rat
  date : Date
  time : TimeOfDay
deriving DecidableEq, Repr

/-- One decoded NMEA record as returned by `nmr.read()` and inspected via
`msg.msgID` (source lines 73-74, 94): a GGA position report carrying
latitude, longitude, time of day and HDOP; an RMC report carrying a status
flag, a date and a time of day; or any other sentence kind. -/
inductive Record where
  | gga (lat lon : Rat) (time : TimeOfDay) (hdop : Rat)
  | rmc (status : String) (date : Date) (time : TimeOfDay)
  | other (msgID : String)
deriving DecidableEq, Repr

/-- The four accumulator variables of `wait_for_fix` (source lines 67-70). -/
structure GpsState where
  lat : Option Rat
  lon : Option Rat
  date : Option Date
  time : Option TimeOfDay
deriving DecidableEq, Repr

/-- The initial accumulator state: all four variables are `None`
(source lines 67-70). -/
def initState : GpsState := ⟨none, none, none, none⟩

/-- One pass of the body of the `while True` loop of `wait_for_fix`
(source lines 74-99), without the emission check: a GGA record whose HDOP
passes the check `msg.HDOP < 3` — the literal `3` of source line 88 —
overwrites lat, lon and time; an RMC record with `msg.status == "A"`
overwrites date; every other record only gets printed. -/
def processRecord (s : GpsState) (r : Record) : GpsState :=
  match r with
  | .gga lat lon time hdop =>
      if hdop < 3 then ⟨some lat, some lon, s.date, some time⟩ else s
  | .rmc status date _ =>
      if status = "A" then ⟨s.lat, s.lon, some date, s.time⟩ else s
  | .other _ => s

/-- The emission check of source lines 100-101: when
`all(val is not None for val in [lat, lon, date, time])` holds, the `Fix`
built from the current values. -/
def GpsState.toFix? : GpsState → Option Fix
  | ⟨some lat, some lon, some date, some time⟩ => some ⟨lat, lon, date, time⟩
  | _ => none

/-- The `while True` loop of `wait_for_fix` (source lines 71-104) over a
finite prefix of the record stream: each record updates the accumulator,
then the all-populated check may return a `Fix`; exhausting the list without
a fix models the `KeyboardInterrupt` path that returns `None`
(source lines 103-104). -/
def waitForFixAux : GpsState → List Record → Option Fix
  | _, [] => none
  | s, r :: rest =>
      let s2 := processRecord s r
      match s2.toFix? with
      | some f => some f
      | none => waitForFixAux s2 rest

/-- `wait_for_fix` (source lines 66-104). The `hdop` parameter (default 3 at
the only call site, line 126) is declared but never read by the body:
source line 88 compares `msg.HDOP` against the literal `3`. -/
def wait_for_fix (records : List Record) (hdop : Rat) : Option Fix :=
  waitForFixAux initState records

/-- The accumulator state after consuming a whole list of records
(the loop of `wait_for_fix` with the early return ignored). -/
def runState (s : GpsState) (l : List Record) : GpsState :=
  List.foldl processRecord s l

/-- A qualifying position report: a GGA record whose HDOP passes the
source-line-88 check `msg.HDOP < 3`. -/
def isQualifyingGGA : Record → Bool
  | .gga _ _ _ hdop => decide (hdop < 3)
  | _ => false

/-- A valid date/validity report: an RMC record whose status is `"A"`
(source line 96). -/
def isValidRMC : Record → Bool
  | .rmc status _ _ => status = "A"
  | _ => false

/-- A record whose message kind the loop inspects at all: GGA or RMC
(source lines 74 and 94). -/
def isRelevant : Record → Bool
  | .gga _ _ _ _ => true
  | .rmc _ _ _ => true
  | .other _ => false

@[simp] lemma runState_nil (s : GpsState) : runState s [] = s := rfl

@[simp] lemma runState_cons (s : GpsState) (r : Record) (l : List Record) :
    runState s (r :: l) = runState (processRecord s r) l := rfl

lemma waitForFixAux_cons (s : GpsState) (r : Record) (l : List Record) :
    waitForFixAux s (r :: l) =
      match (processRecord s r).toFix? with
      | some f => some f
      | none => waitForFixAux (processRecord s r) l := rfl

lemma toFix?_isSome (s : GpsState) :
    s.toFix?.isSome = (s.lat.isSome && s.lon.isSome && s.date.isSome && s.time.isSome) := by
  rcases s with ⟨_ | a, _ | b, _ | c, _ | d⟩ <;> rfl

lemma processRecord_lat_isSome (s : GpsState) (r : Record) (h : s.lat.isSome = true) :
    (processRecord s r).lat.isSome = true := by
  cases r with
  | gga a b t hd => by_cases hh : hd < 3 <;> simp [processRecord, hh, h]
  | rmc st d t => by_cases hh : st = "A" <;> simp [processRecord, hh, h]
  | other m => simpa [processRecord] using h

lemma processRecord_lon_isSome (s : GpsState) (r : Record) (h : s.lon.isSome = true) :
    (processRecord s r).lon.isSome = true := by
  cases r with
  | gga a b t hd => by_cases hh : hd < 3 <;> simp [processRecord, hh, h]
  | rmc st d t => by_cases hh : st = "A" <;> simp [processRecord, hh, h]
  | other m => simpa [processRecord] using h

lemma processRecord_date_isSome (s : GpsState) (r : Record) (h : s.date.isSome = true) :
    (processRecord s r).date.isSome = true := by
  cases r with
  | gga a b t hd => by_cases hh : hd < 3 <;> simp [processRecord, hh, h]
  | rmc st d t => by_cases hh : st = "A" <;> simp [processRecord, hh, h]
  | other m => simpa [processRecord] using h

lemma processRecord_time_isSome (s : GpsState) (r : Record) (h : s.time.isSome = true) :
    (processRecord s r).time.isSome = true := by
  cases r with
  | gga a b t hd => by_cases hh : hd < 3 <;> simp [processRecord, hh, h]
  | rmc st d t => by_cases hh : st = "A" <;> simp [processRecord, hh, h]
  | other m => simpa [processRecord] using h

lemma toFix?_isSome_processRecord (s : GpsState) (r : Record)
    (h : s.toFix?.isSome = true) : ((processRecord s r).toFix?).isSome = true := by
  rw [toFix?_isSome] at h ⊢
  simp only [Bool.and_eq_true] at h ⊢
  exact ⟨⟨⟨processRecord_lat_isSome s r h.1.1.1, processRecord_lon_isSome s r h.1.1.2⟩,
    processRecord_date_isSome s r h.1.2⟩, processRecord_time_isSome s r h.2⟩

lemma toFix?_isSome_runState (l : List Record) :
    ∀ s : GpsState, s.toFix?.isSome = true → ((runState s l).toFix?).isSome = true := by
  induction l with
  | nil => intro s h; simpa using h
  | cons r rest ih => intro s h; exact ih _ (toFix?_isSome_processRecord s r h)

lemma waitForFixAux_isSome (l : List Record) :
    ∀ s : GpsState, s.toFix? = none →
      (waitForFixAux s l).isSome = ((runState s l).toFix?).isSome := by
  induction l with
  | nil => intro s hs; simp [waitForFixAux, hs]
  | cons r rest ih =>
      intro s hs
      rw [runState_cons, waitForFixAux_cons]
      cases hf : (processRecord s r).toFix? with
      | some f =>
          have hmono : ((runState (processRecord s r) rest).toFix?).isSome = true :=
            toFix?_isSome_runState rest _ (by simp [hf])
          simp [hmono]
      | none => exact ih (processRecord s r) hf

lemma runState_lat (l : List Record) :
    ∀ s : GpsState, ((runState s l).lat.isSome = true ↔
      s.lat.isSome = true ∨ ∃ r ∈ l, isQualifyingGGA r = true) := by
  induction l with
  | nil => intro s; simp
  | cons r rest ih =>
      intro s
      rw [runState_cons, ih]
      cases r with
      | gga a b t hd =>
          by_cases hh : hd < 3 <;> simp [processRecord, isQualifyingGGA, hh]
      | rmc st d t =>
          by_cases hh : st = "A" <;> simp [processRecord, isQualifyingGGA, hh]
      | other m => simp [processRecord, isQualifyingGGA]

lemma runState_lon (l : List Record) :
    ∀ s : GpsState, ((runState s l).lon.isSome = true ↔
      s.lon.isSome = true ∨ ∃ r ∈ l, isQualifyingGGA r = true) := by
  induction l with
  | nil => intro s; simp
  | cons r rest ih =>
      intro s
      rw [runState_cons, ih]
      cases r with
      | gga a b t hd =>
          by_cases hh : hd < 3 <;> simp [processRecord, isQualifyingGGA, hh]
      | rmc st d t =>
          by_cases hh : st = "A" <;> simp [processRecord, isQualifyingGGA, hh]
      | other m => simp [processRecord, isQualifyingGGA]

lemma runState_time (l : List Record) :
    ∀ s : GpsState, ((runState s l).time.isSome = true ↔
      s.time.isSome = true ∨ ∃ r ∈ l, isQualifyingGGA r = true) := by
  induction l with
  | nil => intro s; simp
  | cons r rest ih =>
      intro s
      rw [runState_cons, ih]
      cases r with
      | gga a b t hd =>
          by_cases hh : hd < 3 <;> simp [processRecord, isQualifyingGGA, hh]
      | rmc st d t =>
          by_cases hh : st = "A" <;> simp [processRecord, isQualifyingGGA, hh]
      | other m => simp [processRecord, isQualifyingGGA]

lemma runState_date (l : List Record) :
    ∀ s : GpsState, ((runState s l).date.isSome = true ↔
      s.date.isSome = true ∨ ∃ r ∈ l, isValidRMC r = true) := by
  induction l with
  | nil => intro s; simp
  | cons r rest ih =>
      intro s
      rw [runState_cons, ih]
      cases r with
      | gga a b t hd =>
          by_cases hh : hd < 3 <;> simp [processRecord, isValidRMC, hh]
      | rmc st d t =>
          by_cases hh : st = "A" <;> simp [processRecord, isValidRMC, hh]
      | other m => simp [processRecord, isValidRMC]

lemma runState_rejected (l : List Record) :
    ∀ s : GpsState, (∀ r ∈ l, ∃ a b t hd, r = Record.gga a b t hd ∧ 3 ≤ hd) →
      runState s l = s := by
  induction l with
  | nil => intro s _; rfl
  | cons r rest ih =>
      intro s hl
      obtain ⟨a, b, t, hd, hr, hhd⟩ := hl r (List.mem_cons_self r rest)
      subst hr
      rw [runState_cons]
      have hpr : processRecord s (Record.gga a b t hd) = s := by
        simp [processRecord, not_lt.mpr hhd]
      rw [hpr]
      exact ih s (fun r hr => hl r (List.mem_cons_of_mem _ hr))

lemma waitForFixAux_filter (l : List Record) :
    ∀ s : GpsState, s.toFix? = none →
      waitForFixAux s (List.filter isRelevant l) = waitForFixAux s l := by
  induction l with
  | nil => intro s _; rfl
  | cons r rest ih =>
      intro s hs
      cases r with
      | gga a b t hd =>
          have h1 : List.filter isRelevant (Record.gga a b t hd :: rest) =
              Record.gga a b t hd :: List.filter isRelevant rest := by
            simp [isRelevant]
          rw [h1, waitForFixAux_cons, waitForFixAux_cons]
          cases hf : (processRecord s (Record.gga a b t hd)).toFix? with
          | some f => rfl
          | none => exact ih _ hf
      | rmc st d t =>
          have h1 : List.filter isRelevant (Record.rmc st d t :: rest) =
              Record.rmc st d t :: List.filter isRelevant rest := by
            simp [isRelevant]
          rw [h1, waitForFixAux_cons, waitForFixAux_cons]
          cases hf : (processRecord s (Record.rmc st d t)).toFix? with
          | some f => rfl
          | none => exact ih _ hf
      | other m =>
          have h1 : List.filter isRelevant (Record.other m :: rest) =
              List.filter isRelevant rest := by
            simp [isRelevant]
          rw [h1, waitForFixAux_cons]
          have h2 : processRecord s (Record.other m) = s := rfl
          rw [h2, hs]
          exact ih s hs

/-- **C1.** `wait_for_fix` at the default threshold (3) emits a `Fix` if and
only if the consumed record sequence contains at least one qualifying GGA
position report (HDOP below the threshold, supplying latitude, longitude and
time of day) and at least one valid RMC date report (status `"A"`, supplying
the date), in whatever order the two kinds arrive. -/
theorem C1_fix_iff_qualifying_and_valid (l : List Record) :
    (wait_for_fix l 3).isSome = true ↔
      (∃ r ∈ l, isQualifyingGGA r = true) ∧ (∃ r ∈ l, isValidRMC r = true) := by
  rw [wait_for_fix, waitForFixAux_isSome l initState rfl, toFix?_isSome]
  simp only [Bool.and_eq_true]
  rw [runState_lat, runState_lon, runState_date, runState_time]
  simp only [initState, Option.isSome_none, Bool.false_eq_true, false_or]
  tauto

/-- **C2** (code bug). The `hdop` parameter of `wait_for_fix` is declared but
never used: source line 88 compares against the literal `3`, so the result is
the same for every configured threshold; in particular, with a configured
threshold of 5 a GGA report with HDOP 4 (strictly below 5) is discarded — it
does not populate lat/lon/time, and even a following valid RMC yields no
`Fix`, against the claimed contract. -/
theorem C2_threshold_hardcoded :
    (∀ (l : List Record) (h₁ h₂ : Rat), wait_for_fix l h₁ = wait_for_fix l h₂) ∧
    wait_for_fix [Record.gga 34 (-118) ⟨10, 0, 0⟩ 4,
      Record.rmc "A" ⟨2024, 6, 1⟩ ⟨10, 0, 0⟩] 5 = none ∧
    processRecord initState (Record.gga 34 (-118) ⟨10, 0, 0⟩ 4) = initState := by
  refine ⟨fun _ _ _ => rfl, ?_, ?_⟩ <;> rfl

/-- **C6.** A sequence consisting only of GGA position reports whose HDOP is
at or above the threshold never changes the accumulator's latitude,
longitude or time-of-day state. -/
theorem C6_rejected_reports_preserve_state (s : GpsState) (l : List Record)
    (hl : ∀ r ∈ l, ∃ a b t hd, r = Record.gga a b t hd ∧ 3 ≤ hd) :
    (runState s l).lat = s.lat ∧ (runState s l).lon = s.lon ∧
      (runState s l).time = s.time := by
  rw [runState_rejected l s hl]
  exact ⟨rfl, rfl, rfl⟩

/-- Witness for C6 at a concrete rejected report (HDOP 5 ≥ 3). -/
theorem C6_witness :
    (∀ r ∈ [Record.gga 34 (-118) ⟨10, 0, 0⟩ 5],
      ∃ a b t hd, r = Record.gga a b t hd ∧ 3 ≤ hd) ∧
    ((runState initState [Record.gga 34 (-118) ⟨10, 0, 0⟩ 5]).lat = initState.lat ∧
     (runState initState [Record.gga 34 (-118) ⟨10, 0, 0⟩ 5]).lon = initState.lon ∧
     (runState initState [Record.gga 34 (-118) ⟨10, 0, 0⟩ 5]).time = initState.time) := by
  have hl : ∀ r ∈ [Record.gga 34 (-118) ⟨10, 0, 0⟩ 5],
      ∃ a b t hd, r = Record.gga a b t hd ∧ 3 ≤ hd := by
    intro r hr
    simp only [List.mem_singleton] at hr
    exact ⟨34, -118, ⟨10, 0, 0⟩, 5, hr, by norm_num⟩
  exact ⟨hl, C6_rejected_reports_preserve_state initState _ hl⟩

/-- **C7.** After a qualifying GGA report (HDOP strictly below the
threshold) the accumulator's lat/lon/time equal that report's values, and a
subsequently consumed GGA report with HDOP at or above the threshold leaves
them unchanged: a worse report never overwrites a prior qualifying one. -/
theorem C7_worse_report_never_overwrites (s : GpsState) (a b : Rat)
    (t : TimeOfDay) (hd : Rat) (a' b' : Rat) (t' : TimeOfDay) (hd' : Rat)
    (h : hd < 3) (h' : 3 ≤ hd') :
    (processRecord s (Record.gga a b t hd)).lat = some a ∧
    (processRecord s (Record.gga a b t hd)).lon = some b ∧
    (processRecord s (Record.gga a b t hd)).time = some t ∧
    (processRecord (processRecord s (Record.gga a b t hd))
      (Record.gga a' b' t' hd')).lat = some a ∧
    (processRecord (processRecord s (Record.gga a b t hd))
      (Record.gga a' b' t' hd')).lon = some b ∧
    (processRecord (processRecord s (Record.gga a b t hd))
      (Record.gga a' b' t' hd')).time = some t := by
  simp [processRecord, h, not_lt.mpr h']

/-- Witness for C7: a qualifying report (HDOP 1.5) followed by a worse one
(HDOP 4). -/
theorem C7_witness :
    ((1.5 : Rat) < 3 ∧ (3 : Rat) ≤ 4) ∧
    ((processRecord initState (Record.gga 34 (-118) ⟨10, 0, 0⟩ 1.5)).lat = some 34 ∧
     (processRecord initState (Record.gga 34 (-118) ⟨10, 0, 0⟩ 1.5)).lon = some (-118) ∧
     (processRecord initState (Record.gga 34 (-118) ⟨10, 0, 0⟩ 1.5)).time = some ⟨10, 0, 0⟩ ∧
     (processRecord (processRecord initState (Record.gga 34 (-118) ⟨10, 0, 0⟩ 1.5))
       (Record.gga 35 (-119) ⟨11, 0, 0⟩ 4)).lat = some 34 ∧
     (processRecord (processRecord initState (Record.gga 34 (-118) ⟨10, 0, 0⟩ 1.5))
       (Record.gga 35 (-119) ⟨11, 0, 0⟩ 4)).lon = some (-118) ∧
     (processRecord (processRecord initState (Record.gga 34 (-118) ⟨10, 0, 0⟩ 1.5))
       (Record.gga 35 (-119) ⟨11, 0, 0⟩ 4)).time = some ⟨10, 0, 0⟩) :=
  ⟨⟨by norm_num, by norm_num⟩,
    C7_worse_report_never_overwrites initState 34 (-118) ⟨10, 0, 0⟩ 1.5
      35 (-119) ⟨11, 0, 0⟩ 4 (by norm_num) (by norm_num)⟩

/-- **C10.** A record that is neither a GGA nor an RMC report leaves the
accumulator state unchanged, and removing all such records from the stream
changes nothing about the outcome of `wait_for_fix` — in particular an
irrelevant record is never the one whose processing emits the `Fix`. -/
theorem C10_irrelevant_records_ignored :
    (∀ (s : GpsState) (m : String), processRecord s (Record.other m) = s) ∧
    (∀ (l : List Record) (hdop : Rat),
      wait_for_fix (List.filter isRelevant l) hdop = wait_for_fix l hdop) := by
  refine ⟨fun _ _ => rfl, fun l _ => ?_⟩
  exact waitForFixAux_filter l initState rfl

/-- The value `astimezone` returns on source line 144, together with the
offsets that value reports: `utcoffset()` and `dst()` in whole seconds. -/
structure LocalDateTime where
  date : Date
  time : TimeOfDay
  utcOffsetSeconds : Int
  dstOffsetSeconds : Int
deriving DecidableEq, Repr

/-- One request/response call on the NexStar hand controller. -/
inductive CtrlCall where
  | getModel
  | getVersion
  | setTime (timestamp : LocalDateTime) (dst : Nat)
  | setLocation (lat lon : Rat)
  | getLocation
  | getTime
  | getPosition
deriving DecidableEq, Repr

/-- How one run of `set_telescope_from_gps` ends. -/
inductive RunResult where
  | completed
  /-- Source line 131 evaluates `fix.lat` with `fix = None`: the run dies on
  an unhandled `AttributeError` (the `if fix is None` branch on lines 127-128
  only prints, it does not return). -/
  | noneFixAttributeError
  /-- Source line 132 calls `pytz.timezone(None)` when `timezone_at` found no
  timezone on line 131: the run dies on an unhandled
  `pytz.UnknownTimeZoneError` (pytz raises it for a `None` zone name). -/
  | unknownTimeZoneError
  /-- A controller call after the Identify block raised: no handler exists
  after source line 121, so the exception terminates the run. -/
  | controllerProtocolError
deriving DecidableEq, Repr

/-- The external collaborators of one run of `set_telescope_from_gps`
(source lines 107-157): whether the Identify block (lines 113-121) raises,
the GPS record stream read by `wait_for_fix`, the timezone index
`TimezoneFinder.timezone_at` (line 131), the timezone-database conversion
performed by `astimezone` (line 144), and which controller calls raise a
protocol error. -/
structure Env where
  identifyFails : Bool
  gpsRecords : List Record
  tzLookup : Rat → Rat → Option String
  localize : String → Date → TimeOfDay → LocalDateTime
  setTimeFails : Bool
  setLocationFails : Bool
  getLocationFails : Bool
  getTimeFails : Bool
  getPositionFails : Bool

/-- Source line 145: `int(dt_local.dst().total_seconds() > 0)`. -/
def isDaylightSavingTime (dtLocal : LocalDateTime) : Nat :=
  if 0 < dtLocal.dstOffsetSeconds then 1 else 0

/-- Source lines 123-157 of `set_telescope_from_gps`: everything after the
Identify try/except. Returns how the run ends and the controller calls
issued after Identify, in order; a call that raises is still recorded (it
was issued), and since no handler exists past line 121 the exception then
terminates the run. The `None`-fix branch (lines 127-128) only prints, so
the run falls through to line 131 and dies dereferencing `fix.lat`; a `None`
timezone makes `pytz.timezone` on line 132 raise. -/
def runAfterIdentify (env : Env) : RunResult × List CtrlCall :=
  match wait_for_fix env.gpsRecords 3 with
  | none => (RunResult.noneFixAttributeError, [])
  | some fix =>
      match env.tzLookup fix.lat fix.lon with
      | none => (RunResult.unknownTimeZoneError, [])
      | some tz =>
          let dtLocal := env.localize tz fix.date fix.time
          let dst := isDaylightSavingTime dtLocal
          let pushTime := CtrlCall.setTime dtLocal dst
          let pushLoc := CtrlCall.setLocation fix.lat fix.lon
          if env.setTimeFails then
            (RunResult.controllerProtocolError, [pushTime])
          else if env.setLocationFails then
            (RunResult.controllerProtocolError, [pushTime, pushLoc])
          else if env.getLocationFails then
            (RunResult.controllerProtocolError,
              [pushTime, pushLoc, CtrlCall.getLocation])
          else if env.getTimeFails then
            (RunResult.controllerProtocolError,
              [pushTime, pushLoc, CtrlCall.getLocation, CtrlCall.getTime])
          else if env.getPositionFails then
            (RunResult.controllerProtocolError,
              [pushTime, pushLoc, CtrlCall.getLocation, CtrlCall.getTime,
                CtrlCall.getPosition])
          else
            (RunResult.completed,
              [pushTime, pushLoc, CtrlCall.getLocation, CtrlCall.getTime,
                CtrlCall.getPosition])

/-- `set_telescope_from_gps` (source lines 107-157). The Identify block
catches every exception and continues: the bare `exit` on line 121 is a
no-op expression, not a call, so a failed Identify only shortens the call
trace (the raising `getModel` is recorded; `getVersion` is then skipped). -/
def set_telescope_from_gps (env : Env) : RunResult × List CtrlCall :=
  let idCalls :=
    if env.identifyFails then [CtrlCall.getModel]
    else [CtrlCall.getModel, CtrlCall.getVersion]
  let rest := runAfterIdentify env
  (rest.1, idCalls ++ rest.2)

@[simp] lemma set_telescope_fst (env : Env) :
    (set_telescope_from_gps env).1 = (runAfterIdentify env).1 := rfl

@[simp] lemma set_telescope_snd (env : Env) :
    (set_telescope_from_gps env).2 =
      (if env.identifyFails then [CtrlCall.getModel]
       else [CtrlCall.getModel, CtrlCall.getVersion]) ++ (runAfterIdentify env).2 := rfl

lemma runAfterIdentify_no_fix (env : Env)
    (hfix : wait_for_fix env.gpsRecords 3 = none) :
    runAfterIdentify env = (RunResult.noneFixAttributeError, []) := by
  unfold runAfterIdentify
  rw [hfix]

lemma runAfterIdentify_no_tz (env : Env) (fix : Fix)
    (hfix : wait_for_fix env.gpsRecords 3 = some fix)
    (htz : env.tzLookup fix.lat fix.lon = none) :
    runAfterIdentify env = (RunResult.unknownTimeZoneError, []) := by
  unfold runAfterIdentify
  rw [hfix]
  simp only []
  rw [htz]

lemma runAfterIdentify_tz (env : Env) (fix : Fix) (tz : String)
    (hfix : wait_for_fix env.gpsRecords 3 = some fix)
    (htz : env.tzLookup fix.lat fix.lon = some tz) :
    runAfterIdentify env =
      (if env.setTimeFails then
        (RunResult.controllerProtocolError,
          [CtrlCall.setTime (env.localize tz fix.date fix.time)
            (isDaylightSavingTime (env.localize tz fix.date fix.time))])
      else if env.setLocationFails then
        (RunResult.controllerProtocolError,
          [CtrlCall.setTime (env.localize tz fix.date fix.time)
            (isDaylightSavingTime (env.localize tz fix.date fix.time)),
           CtrlCall.setLocation fix.lat fix.lon])
      else if env.getLocationFails then
        (RunResult.controllerProtocolError,
          [CtrlCall.setTime (env.localize tz fix.date fix.time)
            (isDaylightSavingTime (env.localize tz fix.date fix.time)),
           CtrlCall.setLocation fix.lat fix.lon, CtrlCall.getLocation])
      else if env.getTimeFails then
        (RunResult.controllerProtocolError,
          [CtrlCall.setTime (env.localize tz fix.date fix.time)
            (isDaylightSavingTime (env.localize tz fix.date fix.time)),
           CtrlCall.setLocation fix.lat fix.lon, CtrlCall.getLocation,
           CtrlCall.getTime])
      else if env.getPositionFails then
        (RunResult.controllerProtocolError,
          [CtrlCall.setTime (env.localize tz fix.date fix.time)
            (isDaylightSavingTime (env.localize tz fix.date fix.time)),
           CtrlCall.setLocation fix.lat fix.lon, CtrlCall.getLocation,
           CtrlCall.getTime, CtrlCall.getPosition])
      else
        (RunResult.completed,
          [CtrlCall.setTime (env.localize tz fix.date fix.time)
            (isDaylightSavingTime (env.localize tz fix.date fix.time)),
           CtrlCall.setLocation fix.lat fix.lon, CtrlCall.getLocation,
           CtrlCall.getTime, CtrlCall.getPosition])) := by
  unfold runAfterIdentify
  rw [hfix]
  simp only []
  rw [htz]

/-- A record stream yielding a fix: one qualifying GGA, one valid RMC. -/
def recsGood : List Record :=
  [Record.gga 34 (-118) ⟨17, 30, 0⟩ 1, Record.rmc "A" ⟨2024, 6, 1⟩ ⟨17, 30, 0⟩]

/-- The fix `wait_for_fix` assembles from `recsGood`. -/
def fixGood : Fix := ⟨34, -118, ⟨2024, 6, 1⟩, ⟨17, 30, 0⟩⟩

lemma wait_for_fix_recsGood : wait_for_fix recsGood 3 = some fixGood := rfl

/-- An environment whose GPS stream ends (operator interrupt) before any
fix is assembled; every other collaborator behaves. -/
def envNoFix : Env :=
  ⟨false, [], fun _ _ => some "UTC", fun _ d t => ⟨d, t, 0, 0⟩,
    false, false, false, false, false⟩

/-- An environment where the timezone index knows no timezone for the fix
coordinates (mid-ocean). -/
def envNoTz : Env :=
  ⟨false, recsGood, fun _ _ => none, fun _ d t => ⟨d, t, 0, 0⟩,
    false, false, false, false, false⟩

/-- An environment whose timezone has a positive UTC offset (+1h) but a zero
daylight-saving offset. -/
def envUtcPlus : Env :=
  ⟨false, recsGood, fun _ _ => some "Etc/GMT-1", fun _ d t => ⟨d, t, 3600, 0⟩,
    false, false, false, false, false⟩

/-- An environment where Identify raises but everything else behaves
(Los Angeles in June: UTC offset -7h, DST offset +1h). -/
def envIdFail : Env :=
  ⟨true, recsGood, fun _ _ => some "America/Los_Angeles",
    fun _ d t => ⟨d, t, -25200, 3600⟩, false, false, false, false, false⟩

/-- An environment where the first Verify read-back (`getLocation`) raises a
protocol error; everything before it behaves. -/
def envVerifyFail : Env :=
  ⟨false, recsGood, fun _ _ => some "America/Los_Angeles",
    fun _ d t => ⟨d, t, -25200, 3600⟩, false, false, true, false, false⟩

/-- **C3** (code bug). When fix acquisition ends with no fix, the code does
print the failure but does not return: it falls through to source line 131
and dereferences `fix.lat` on `None`, so the run dies on an unhandled
`AttributeError` instead of terminating cleanly. The controller is still
never written (`setTime`/`setLocation` are absent from the call trace). -/
theorem C3_none_fix_crashes :
    wait_for_fix envNoFix.gpsRecords 3 = none ∧
    set_telescope_from_gps envNoFix =
      (RunResult.noneFixAttributeError, [CtrlCall.getModel, CtrlCall.getVersion]) := by
  exact ⟨rfl, rfl⟩

/-- **C4.** When the timezone index returns no identifier for the fix
coordinates, `pytz.timezone(None)` on source line 132 raises and the
exception propagates: the run aborts with the timezone-resolution error and
the controller writes `setTime`/`setLocation` are never issued — no UTC
fallback is substituted. -/
theorem C4_no_timezone_aborts (env : Env) (fix : Fix)
    (hfix : wait_for_fix env.gpsRecords 3 = some fix)
    (htz : env.tzLookup fix.lat fix.lon = none) :
    (set_telescope_from_gps env).1 = RunResult.unknownTimeZoneError ∧
    (∀ dt d, CtrlCall.setTime dt d ∉ (set_telescope_from_gps env).2) ∧
    (∀ a b, CtrlCall.setLocation a b ∉ (set_telescope_from_gps env).2) := by
  have hr := runAfterIdentify_no_tz env fix hfix htz
  refine ⟨by simp [hr], ?_, ?_⟩
  · intro dt d
    cases hid : env.identifyFails <;> simp [hr, hid]
  · intro a b
    cases hid : env.identifyFails <;> simp [hr, hid]

/-- Witness for C4: a concrete run over `envNoTz`. -/
theorem C4_witness :
    wait_for_fix envNoTz.gpsRecords 3 = some fixGood ∧
    envNoTz.tzLookup fixGood.lat fixGood.lon = none ∧
    ((set_telescope_from_gps envNoTz).1 = RunResult.unknownTimeZoneError ∧
     (∀ dt d, CtrlCall.setTime dt d ∉ (set_telescope_from_gps envNoTz).2) ∧
     (∀ a b, CtrlCall.setLocation a b ∉ (set_telescope_from_gps envNoTz).2)) :=
  ⟨rfl, rfl, C4_no_timezone_aborts envNoTz fixGood rfl rfl⟩

/-- **C5.** Whenever the run reaches the controller writes, the
daylight-saving flag passed to `setTime` is exactly
`int(dst_offset_seconds > 0)` of the local civil instant (source line 145):
it is 1 precisely when the daylight-saving offset is strictly positive, and
the UTC offset plays no part in it. -/
theorem C5_dst_flag (env : Env) (fix : Fix) (tz : String)
    (hfix : wait_for_fix env.gpsRecords 3 = some fix)
    (htz : env.tzLookup fix.lat fix.lon = some tz) :
    CtrlCall.setTime (env.localize tz fix.date fix.time)
        (isDaylightSavingTime (env.localize tz fix.date fix.time)) ∈
      (set_telescope_from_gps env).2 ∧
    (isDaylightSavingTime (env.localize tz fix.date fix.time) = 1 ↔
      0 < (env.localize tz fix.date fix.time).dstOffsetSeconds) := by
  have hr := runAfterIdentify_tz env fix tz hfix htz
  constructor
  · refine List.mem_append_right _ ?_
    rw [hr]
    cases env.setTimeFails <;> cases env.setLocationFails <;>
      cases env.getLocationFails <;> cases env.getTimeFails <;>
      cases env.getPositionFails <;> simp
  · by_cases h : 0 < (env.localize tz fix.date fix.time).dstOffsetSeconds <;>
      simp [isDaylightSavingTime, h]

/-- Witness for C5: over `envUtcPlus` the timezone's UTC offset is +3600s
while its DST offset is 0, and the flag pushed with `setTime` is 0 — so the
flag follows the DST offset, not the UTC offset. -/
theorem C5_witness :
    wait_for_fix envUtcPlus.gpsRecords 3 = some fixGood ∧
    envUtcPlus.tzLookup fixGood.lat fixGood.lon = some "Etc/GMT-1" ∧
    (CtrlCall.setTime (envUtcPlus.localize "Etc/GMT-1" fixGood.date fixGood.time)
        (isDaylightSavingTime
          (envUtcPlus.localize "Etc/GMT-1" fixGood.date fixGood.time)) ∈
      (set_telescope_from_gps envUtcPlus).2 ∧
     (isDaylightSavingTime
         (envUtcPlus.localize "Etc/GMT-1" fixGood.date fixGood.time) = 1 ↔
       0 < (envUtcPlus.localize "Etc/GMT-1" fixGood.date
          fixGood.time).dstOffsetSeconds)) :=
  ⟨rfl, rfl, C5_dst_flag envUtcPlus fixGood "Etc/GMT-1" rfl rfl⟩

/-- **C8.** A failing Identify step does not abort the run: the outcome is
exactly the outcome of the post-Identify steps (fix acquisition onward), the
whole post-Identify call trace still follows, and when every later
collaborator behaves the run still completes. -/
theorem C8_identify_failure_continues (env : Env)
    (hid : env.identifyFails = true) :
    (set_telescope_from_gps env).1 = (runAfterIdentify env).1 ∧
    (set_telescope_from_gps env).2 =
      CtrlCall.getModel :: (runAfterIdentify env).2 ∧
    (∀ fix : Fix, wait_for_fix env.gpsRecords 3 = some fix →
      (∃ tz, env.tzLookup fix.lat fix.lon = some tz) →
      env.setTimeFails = false → env.setLocationFails = false →
      env.getLocationFails = false → env.getTimeFails = false →
      env.getPositionFails = false →
      (set_telescope_from_gps env).1 = RunResult.completed) := by
  refine ⟨rfl, by simp [hid], ?_⟩
  rintro fix hfix ⟨tz, htz⟩ h1 h2 h3 h4 h5
  have hr := runAfterIdentify_tz env fix tz hfix htz
  simp [hr, h1, h2, h3, h4, h5]

/-- Witness for C8: over `envIdFail` (Identify raises, all else behaves) the
run still completes. -/
theorem C8_witness :
    envIdFail.identifyFails = true ∧
    ((set_telescope_from_gps envIdFail).1 = (runAfterIdentify envIdFail).1 ∧
     (set_telescope_from_gps envIdFail).2 =
       CtrlCall.getModel :: (runAfterIdentify envIdFail).2 ∧
     (∀ fix : Fix, wait_for_fix envIdFail.gpsRecords 3 = some fix →
       (∃ tz, envIdFail.tzLookup fix.lat fix.lon = some tz) →
       envIdFail.setTimeFails = false → envIdFail.setLocationFails = false →
       envIdFail.getLocationFails = false → envIdFail.getTimeFails = false →
       envIdFail.getPositionFails = false →
       (set_telescope_from_gps envIdFail).1 = RunResult.completed)) :=
  ⟨rfl, C8_identify_failure_continues envIdFail rfl⟩

/-- **C9 counterexample.** A protocol error in the first Verify read-back
(`getLocation`) is not survived: the run ends with the uncaught controller
error instead of completing, and the remaining read-backs (`getTime`,
`getPosition`) are never issued — the claim's "the run continues" is false
on the code. -/
theorem C9_counterexample :
    (set_telescope_from_gps envVerifyFail).1 = RunResult.controllerProtocolError ∧
    (set_telescope_from_gps envVerifyFail).1 ≠ RunResult.completed ∧
    CtrlCall.getTime ∉ (set_telescope_from_gps envVerifyFail).2 ∧
    CtrlCall.getPosition ∉ (set_telescope_from_gps envVerifyFail).2 := by
  have h : set_telescope_from_gps envVerifyFail =
      (RunResult.controllerProtocolError,
        [CtrlCall.getModel, CtrlCall.getVersion,
         CtrlCall.setTime ⟨⟨2024, 6, 1⟩, ⟨17, 30, 0⟩, -25200, 3600⟩ 1,
         CtrlCall.setLocation 34 (-118), CtrlCall.getLocation]) := rfl
  rw [h]
  refine ⟨rfl, by simp, by simp, by simp⟩

/-- **C9 amended.** A controller protocol error raised during the Verify
read-backs propagates uncaught and terminates the run (the remaining
read-backs are skipped), but the PushTime/PushLocation writes are not rolled
back: `setTime` and `setLocation` remain in the issued call sequence. -/
theorem C9_verify_error_fatal_no_rollback (env : Env) (fix : Fix) (tz : String)
    (hfix : wait_for_fix env.gpsRecords 3 = some fix)
    (htz : env.tzLookup fix.lat fix.lon = some tz)
    (h1 : env.setTimeFails = false) (h2 : env.setLocationFails = false)
    (hver : env.getLocationFails = true ∨ env.getTimeFails = true ∨
      env.getPositionFails = true) :
    (set_telescope_from_gps env).1 = RunResult.controllerProtocolError ∧
    CtrlCall.setTime (env.localize tz fix.date fix.time)
        (isDaylightSavingTime (env.localize tz fix.date fix.time)) ∈
      (set_telescope_from_gps env).2 ∧
    CtrlCall.setLocation fix.lat fix.lon ∈ (set_telescope_from_gps env).2 := by
  have hr := runAfterIdentify_tz env fix tz hfix htz
  have hmemT : CtrlCall.setTime (env.localize tz fix.date fix.time)
      (isDaylightSavingTime (env.localize tz fix.date fix.time)) ∈
      (runAfterIdentify env).2 := by
    rw [hr]
    cases env.getLocationFails <;> cases env.getTimeFails <;>
      cases env.getPositionFails <;> simp [h1, h2]
  have hmemL : CtrlCall.setLocation fix.lat fix.lon ∈ (runAfterIdentify env).2 := by
    rw [hr]
    rcases hver with h | h | h <;>
      cases hgl : env.getLocationFails <;> cases hgt : env.getTimeFails <;>
        cases hgp : env.getPositionFails <;> simp_all
  have hres : (runAfterIdentify env).1 = RunResult.controllerProtocolError := by
    rw [hr]
    rcases hver with h | h | h <;>
      cases hgl : env.getLocationFails <;> cases hgt : env.getTimeFails <;>
        cases hgp : env.getPositionFails <;> simp_all
  exact ⟨hres, List.mem_append_right _ hmemT, List.mem_append_right _ hmemL⟩

/-- Witness for the amended C9: over `envVerifyFail` the run ends with the
controller error while `setTime` and `setLocation` remain issued. -/
theorem C9_witness :
    wait_for_fix envVerifyFail.gpsRecords 3 = some fixGood ∧
    envVerifyFail.tzLookup fixGood.lat fixGood.lon = some "America/Los_Angeles" ∧
    envVerifyFail.setTimeFails = false ∧ envVerifyFail.setLocationFails = false ∧
    envVerifyFail.getLocationFails = true ∧
    ((set_telescope_from_gps envVerifyFail).1 = RunResult.controllerProtocolError ∧
     CtrlCall.setTime
         (envVerifyFail.localize "America/Los_Angeles" fixGood.date fixGood.time)
         (isDaylightSavingTime
           (envVerifyFail.localize "America/Los_Angeles" fixGood.date fixGood.time)) ∈
       (set_telescope_from_gps envVerifyFail).2 ∧
     CtrlCall.setLocation fixGood.lat fixGood.lon ∈
       (set_telescope_from_gps envVerifyFail).2) :=
  ⟨rfl, rfl, rfl, rfl, rfl,
    C9_verify_error_fatal_no_rollback envVerifyFail fixGood "America/Los_Angeles"
      rfl rfl rfl rfl (Or.inl rfl)⟩

end TelescopeTools
